import Mathlib

/-!
Verification of the conversational state / intent-dispatch engine generated by
ChatbotGenerator.js (the code emitted into `handlers/intent-handler.js`,
`handlers/conversation-flow-handler.js`, `handlers/product-recommendation-handler.js`
and `handlers/user-state-manager.js`).

The JavaScript is embedded shallowly: the per-user state object becomes a
structure, the module-level in-memory map becomes explicit state passing
(`Option ConversationState` for "what the map holds for this user"), the two
outbound LLM calls and the runtime JSON parser become oracle parameters of type
`Except String _` (an exception-or-value outcome), and JavaScript `try/catch`
becomes a `match` on that `Except`.  `Date` timestamps (`createdAt`,
`updatedAt`, history-entry `timestamp`) carry no logic and are omitted.
-/

/-- One entry of `conversationHistory`: the `{role, content}` pair stored by
`updateUserState` (role "user") and `addBotResponse` (role "assistant"). -/
structure Message where
  role : String
  content : String
deriving DecidableEq

/-- The per-user state object of `user-state-manager.js`.  `lastIntent` and
`lastMessage` are `null` at creation, hence `Option`. `preferences` is a
free-form key/value map, kept as an association list. -/
structure ConversationState where
  conversationHistory : List Message
  preferences : List (String × String)
  lastIntent : Option String
  lastMessage : Option String
  messageCount : Nat
  stage : String
deriving DecidableEq

/-- The default state installed by `getUserState` on first lookup. -/
def defaultState : ConversationState :=
  { conversationHistory := []
    preferences := []
    lastIntent := none
    lastMessage := none
    messageCount := 0
    stage := "greeting" }

/-- `getUserState(userId)`: returns the stored state, lazily creating the
default one.  The module-level `userStates` map entry for the user is passed
explicitly as `stored`. -/
def getUserState (stored : Option ConversationState) : ConversationState :=
  stored.getD defaultState

/-- `determineConversationStage(state)`: the ordered rule list of
`user-state-manager.js`, reading only `messageCount` and `lastIntent`. -/
def determineConversationStage (state : ConversationState) : String :=
  if state.messageCount ≤ 1 then "greeting"
  else if state.lastIntent = some "checkout_help" then "checkout"
  else if state.lastIntent = some "product_inquiry" ∨ state.lastIntent = some "price_inquiry" then
    "product_discovery"
  else if state.lastIntent = some "objection" then "objection_handling"
  else if 5 ≤ state.messageCount then "engagement"
  else "information"

/-- The shape of the `updates` object that `processMessage` passes to
`updateUserState` (`{lastIntent, lastMessage, messageCount}`). -/
structure StateUpdates where
  lastIntent : String
  lastMessage : String
  messageCount : Nat
deriving DecidableEq

/-- `updateUserState(userId, updates)`: spreads the updates over the current
state, appends `{role: "user", content: updates.lastMessage}` to the history
unless `updates.lastMessage` is falsy (empty) or `conversationHistory.some`
already finds a user entry with that content, then recomputes `stage` on the
new state.  Returns the new state that is written back to the map. -/
def updateUserState (currentState : ConversationState) (updates : StateUpdates) :
    ConversationState :=
  let newHistory :=
    if updates.lastMessage ≠ "" ∧
        ¬ currentState.conversationHistory.any
          (fun msg => msg.role = "user" ∧ msg.content = updates.lastMessage) then
      currentState.conversationHistory ++ [⟨"user", updates.lastMessage⟩]
    else
      currentState.conversationHistory
  let newState : ConversationState :=
    { currentState with
      lastIntent := some updates.lastIntent
      lastMessage := some updates.lastMessage
      messageCount := updates.messageCount
      conversationHistory := newHistory }
  { newState with stage := determineConversationStage newState }

/-- `addBotResponse(userId, response)`: appends an assistant entry to the
history; `stage`, `messageCount`, `lastIntent` are untouched. -/
def addBotResponse (currentState : ConversationState) (response : String) :
    ConversationState :=
  { currentState with
    conversationHistory :=
      currentState.conversationHistory ++ [⟨"assistant", response⟩] }

/-- The timing mode actually used: `process.env.OFFER_TIMING || 'balanced'`.
An unset or empty environment variable is falsy in JavaScript, so both default
to "balanced". -/
def effectiveOfferTiming (offerTimingEnv : Option String) : String :=
  match offerTimingEnv with
  | none => "balanced"
  | some s => if s = "" then "balanced" else s

/-- The message-count threshold each timing mode selects in
`shouldOfferRecommendations` (the three branches of its if/else chain). -/
def offerThreshold (offerTiming : String) : Nat :=
  if offerTiming = "early" then 2
  else if offerTiming = "balanced" then 3
  else 5

/-- `shouldOfferRecommendations(intent, userState)` of
`conversation-flow-handler.js`. -/
def shouldOfferRecommendations (intent : String) (offerTimingEnv : Option String)
    (userState : ConversationState) : Bool :=
  if intent = "product_inquiry" then
    true
  else
    let offerTiming := effectiveOfferTiming offerTimingEnv
    let messageCount := userState.messageCount
    if offerTiming = "early" then decide (2 ≤ messageCount)
    else if offerTiming = "balanced" then decide (3 ≤ messageCount)
    else decide (5 ≤ messageCount)

/-- Stated from the spec's words (§4.4) for the refinement claim about stage
derivation: an ordered first-match-wins rule list over the pair
`(messageCount, lastIntent)`. -/
def deriveStageSpec (messageCount : Nat) (lastIntent : Option String) : String :=
  if messageCount ≤ 1 then "greeting"
  else if lastIntent = some "checkout_help" then "checkout"
  else if lastIntent = some "product_inquiry" ∨ lastIntent = some "price_inquiry" then
    "product_discovery"
  else if lastIntent = some "objection" then "objection_handling"
  else if 5 ≤ messageCount then "engagement"
  else "information"

/-- The `{intent, confidence}` object the classifier produces.  Confidence is
an exact rational here (the JavaScript number is only ever the literal 0.5 on
the fallback path). -/
structure IntentResult where
  intent : String
  confidence : Rat
deriving DecidableEq

/-- The fallback result of `classifyIntent`'s catch block:
`{intent: 'general_question', confidence: 0.5}`. -/
def fallbackIntentResult : IntentResult :=
  { intent := "general_question", confidence := 1 / 2 }

/-- `classifyIntent(message)` of `intent-handler.js`.  The outbound completion
call is the oracle `svc` (its content string, or a thrown transport/service
error); `JSON.parse` of the content is the oracle `parse`.  The try/catch
around both is the `match`: any error on either step yields the fallback. -/
def classifyIntent (parse : String → Except String IntentResult)
    (svc : Except String String) : IntentResult :=
  match svc >>= parse with
  | .ok r => r
  | .error _ => fallbackIntentResult

/-- A product card as rendered by the widget (`name`, `description`, `price`,
`url`); the fields are opaque to the engine. -/
structure Product where
  name : String
  description : String
  price : String
  url : String
deriving DecidableEq

/-- One element of the `actions` list, e.g.
`{type: 'product_recommendations', products: [...]}`. -/
structure BotAction where
  type : String
  products : List Product
deriving DecidableEq

/-- What a handler returns: `{response, actions?}` (the `actions` key may be
absent, hence `Option`). -/
structure HandlerResult where
  response : String
  actions : Option (List BotAction)
deriving DecidableEq

/-- An intent handler: given `(message, userState)` it produces a result or
throws. -/
def Handler : Type :=
  String → ConversationState → Except String HandlerResult

/-- The `intentHandlers` literal object of `intent-handler.js`: one handler
module per closed-set category. -/
structure IntentHandlers where
  greeting : Handler
  product_inquiry : Handler
  price_inquiry : Handler
  shipping_inquiry : Handler
  return_policy : Handler
  checkout_help : Handler
  objection : Handler
  complaint : Handler
  general_question : Handler

/-- The nine closed-set intent categories (the keys of `intentHandlers`). -/
def intentCategories : List String :=
  ["greeting", "product_inquiry", "price_inquiry", "shipping_inquiry",
   "return_policy", "checkout_help", "objection", "complaint", "general_question"]

/-- `getHandlerForIntent(intent)` restricted to the own-key path:
exact match on one of the nine `intentHandlers` keys, else the
`general_question` fallback.  This is the dispatch the orchestrator is proved
against; it agrees with the full JavaScript member-access semantics
`getHandlerForIntentJS` below on every label that is not an inherited
`Object.prototype` member name (see `getHandlerForIntentJS_agrees`), and the
prototype-chain divergence on those labels is settled separately. -/
def getHandlerForIntent (handlers : IntentHandlers) (intent : String) : Handler :=
  if intent = "greeting" then handlers.greeting
  else if intent = "product_inquiry" then handlers.product_inquiry
  else if intent = "price_inquiry" then handlers.price_inquiry
  else if intent = "shipping_inquiry" then handlers.shipping_inquiry
  else if intent = "return_policy" then handlers.return_policy
  else if intent = "checkout_help" then handlers.checkout_help
  else if intent = "objection" then handlers.objection
  else if intent = "complaint" then handlers.complaint
  else if intent = "general_question" then handlers.general_question
  else handlers.general_question

/-- The value of the JavaScript member access `intentHandlers[intent]` after
the `|| intentHandlers.general_question` fallback: either one of the nine
handler modules (an own property, or the fallback), or a member inherited
from `Object.prototype` — a function such as `toString`, or the prototype
object itself for `__proto__` — recorded by its name. -/
inductive MemberValue : Type
  | own (h : Handler)
  | inherited (name : String)

/-- Property names a plain object literal inherits from `Object.prototype`.
Each is bound to a truthy value (a function, or for `__proto__` the prototype
object), so each short-circuits the `||`. -/
def objectPrototypeKeys : List String :=
  ["constructor", "hasOwnProperty", "isPrototypeOf", "propertyIsEnumerable",
   "toLocaleString", "toString", "valueOf", "__proto__",
   "__defineGetter__", "__defineSetter__", "__lookupGetter__", "__lookupSetter__"]

/-- `getHandlerForIntent(intent)` with the full JavaScript semantics of
`intentHandlers[intent] || intentHandlers.general_question`: an own property
(one of the nine keys, which shadow the prototype) is returned; otherwise a
truthy member inherited from `Object.prototype` is returned as is; only an
`undefined` access falls through the `||` to the `general_question`
handler. -/
def getHandlerForIntentJS (handlers : IntentHandlers) (intent : String) : MemberValue :=
  if intent = "greeting" then .own handlers.greeting
  else if intent = "product_inquiry" then .own handlers.product_inquiry
  else if intent = "price_inquiry" then .own handlers.price_inquiry
  else if intent = "shipping_inquiry" then .own handlers.shipping_inquiry
  else if intent = "return_policy" then .own handlers.return_policy
  else if intent = "checkout_help" then .own handlers.checkout_help
  else if intent = "objection" then .own handlers.objection
  else if intent = "complaint" then .own handlers.complaint
  else if intent = "general_question" then .own handlers.general_question
  else if intent ∈ objectPrototypeKeys then .inherited intent
  else .own handlers.general_question

/-- Modelled from the spec: the nine handler modules (`welcome-handler.js`
through `general-question-handler.js`) are required by the generated
`intent-handler.js` but their sources are not produced anywhere in this
repository; per spec sections 4.2 and 8 each handler independently produces a
reply given the message and current state (a welcome-style reply for
`greeting`, and so on).  Each is modelled as returning a fixed non-empty
reply and no actions. -/
def specHandlers : IntentHandlers :=
  { greeting := fun _ _ => .ok ⟨"Hi there! How can I help you today?", none⟩
    product_inquiry := fun _ _ => .ok ⟨"Here is what I can tell you about our products.", none⟩
    price_inquiry := fun _ _ => .ok ⟨"Here is our pricing information.", none⟩
    shipping_inquiry := fun _ _ => .ok ⟨"Here is our shipping information.", none⟩
    return_policy := fun _ _ => .ok ⟨"Here is our return policy.", none⟩
    checkout_help := fun _ _ => .ok ⟨"Let me guide you through the checkout process.", none⟩
    objection := fun _ _ => .ok ⟨"I understand your concern. Let me help.", none⟩
    complaint := fun _ _ => .ok ⟨"I am sorry to hear that. Let me make it right.", none⟩
    general_question := fun _ _ => .ok ⟨"Happy to help with that.", none⟩ }

/-- The JSON object the recommendation service is asked for: a
`recommendations` array that may be absent (`result.recommendations || []`). -/
structure RecResponse where
  recommendations : Option (List Product)
deriving DecidableEq

/-- The `contextPrompt` template of `getProductRecommendations`: the raw
message, the `preferences` entries as `- key: value` lines, and
`conversationHistory.slice(-5)` as `role: content` lines. -/
def buildRecContextPrompt (message : String) (userState : ConversationState) : String :=
  "\nUser message: " ++ message ++ "\n\nUser preferences:\n" ++
    String.intercalate "\n"
      (userState.preferences.map (fun kv => "- " ++ kv.1 ++ ": " ++ kv.2)) ++
    "\n\nConversation history:\n" ++
    String.intercalate "\n"
      ((userState.conversationHistory.drop (userState.conversationHistory.length - 5)).map
        (fun msg => msg.role ++ ": " ++ msg.content)) ++
    "\n"

/-- `getProductRecommendations(message, userState)` of
`product-recommendation-handler.js`.  `svc` is the outbound completion call on
the built prompt, `parse` the `JSON.parse` of its content; the try/catch maps
any error to `[]`, and a parsed object without a `recommendations` array also
yields `[]`. -/
def getProductRecommendations (svc : String → Except String String)
    (parse : String → Except String RecResponse)
    (message : String) (userState : ConversationState) : List Product :=
  match svc (buildRecContextPrompt message userState) >>= parse with
  | .ok result => result.recommendations.getD []
  | .error _ => []

/-- The `{response, actions}` object `processMessage` resolves with. -/
structure BotReply where
  response : String
  actions : List BotAction
deriving DecidableEq

/-- The apology of `processMessage`'s catch block. -/
def apologyResponse : String :=
  "I\x27m sorry, I\x27m having trouble processing your request right now. Can you try again?"

/-- The try block of `processMessage(userId, message)`: load state, classify,
update state (the map write happens here, before the handler runs — see
`processMessageState`), dispatch to the handler (which may throw, propagating
to the catch), then optionally append the recommendations action.  The local
consts `userState` (the object loaded in step 1 — `updateUserState` builds a
fresh object and never mutates it) and the classified intent are written
inline here.  The step-3 map write is `processMessageState` below. -/
def processMessageTry (stored : Option ConversationState)
    (clsParse : String → Except String IntentResult) (clsSvc : Except String String)
    (handlers : IntentHandlers) (offerTimingEnv : Option String)
    (recSvc : String → Except String String) (recParse : String → Except String RecResponse)
    (message : String) : Except String BotReply :=
  match getHandlerForIntent handlers (classifyIntent clsParse clsSvc).intent message
      (getUserState stored) with
  | .error e => .error e
  | .ok result =>
    let actions := result.actions.getD []
    let actions :=
      if shouldOfferRecommendations (classifyIntent clsParse clsSvc).intent offerTimingEnv
          (getUserState stored) then
        let recommendations := getProductRecommendations recSvc recParse message
          (getUserState stored)
        if 0 < recommendations.length then
          actions ++ [{ type := "product_recommendations", products := recommendations }]
        else actions
      else actions
    .ok { response := result.response, actions := actions }

/-- `processMessage` as seen by the caller: the try block with its catch,
which converts any thrown error into the generic apology with no actions. -/
def processMessage (stored : Option ConversationState)
    (clsParse : String → Except String IntentResult) (clsSvc : Except String String)
    (handlers : IntentHandlers) (offerTimingEnv : Option String)
    (recSvc : String → Except String String) (recParse : String → Except String RecResponse)
    (message : String) : BotReply :=
  match processMessageTry stored clsParse clsSvc handlers offerTimingEnv recSvc recParse message with
  | .ok r => r
  | .error _ => { response := apologyResponse, actions := [] }

/-- The effect of `processMessage` on the stored state: step 3 writes
`updateUserState(userId, {lastIntent, lastMessage: message,
messageCount: (userState.messageCount || 0) + 1})` into the map before the
handler is invoked, so it happens whether or not a later step throws
(`classifyIntent` itself never throws).  `messageCount` is always present on a
stored state, so the `|| 0` guard is the identity here. -/
def processMessageState (stored : Option ConversationState)
    (clsParse : String → Except String IntentResult) (clsSvc : Except String String)
    (message : String) : ConversationState :=
  let userState := getUserState stored
  let ir := classifyIntent clsParse clsSvc
  updateUserState userState
    { lastIntent := ir.intent, lastMessage := message,
      messageCount := userState.messageCount + 1 }

/-- The states a single user's map entry can reach: the lazily created default
state, evolved only by `processMessage`'s state update (step 3, with the
incremented count) and by the controller's `addBotResponse` append. -/
inductive ReachableState : ConversationState → Prop
  | init : ReachableState defaultState
  | update (st : ConversationState) (intent message : String) :
      ReachableState st →
      ReachableState (updateUserState st
        { lastIntent := intent, lastMessage := message,
          messageCount := st.messageCount + 1 })
  | bot (st : ConversationState) (response : String) :
      ReachableState st →
      ReachableState (addBotResponse st response)

/-- The number of `role: "user"` entries in a history. -/
def userEntryCount (history : List Message) : Nat :=
  (history.filter (fun msg => msg.role = "user")).length

/-- A concrete product card used to instantiate the oracles in witnesses. -/
def sampleProduct : Product :=
  { name := "Classic Skate Deck", description := "A sturdy 8.0 inch maple deck.",
    price := "49.99", url := "/product/deck-classic" }

/-- C1 counterexample.  The claim says an unset timing mode selects threshold
5, but `process.env.OFFER_TIMING || 'balanced'` makes an unset variable fall
back to "balanced" (threshold 3): with no timing configured and
`messageCount = 3` the code already returns `true`, while `3 >= 5` fails. -/
theorem C1_counterexample :
    shouldOfferRecommendations "greeting" none { defaultState with messageCount := 3 } = true
    ∧ ¬ (5 ≤ (3 : Nat)) := by
  decide

/-- C1 (amended): `shouldOfferRecommendations` is true iff the intent is
"product_inquiry" or `messageCount` reaches the threshold of the effective
timing mode — 2 for "early", 3 for "balanced", 5 for any other configured
value, where an unset (or empty) `OFFER_TIMING` defaults to "balanced";
in particular with timing "early" it is false at `messageCount` 1 and true
at `messageCount` 2. -/
theorem C1_offer_policy :
    (∀ intent offerTimingEnv userState,
        shouldOfferRecommendations intent offerTimingEnv userState = true ↔
          intent = "product_inquiry" ∨
            offerThreshold (effectiveOfferTiming offerTimingEnv) ≤ userState.messageCount)
    ∧ shouldOfferRecommendations "greeting" (some "early")
        { defaultState with messageCount := 1 } = false
    ∧ shouldOfferRecommendations "greeting" (some "early")
        { defaultState with messageCount := 2 } = true := by
  refine ⟨?_, by decide, by decide⟩
  intro intent env st
  unfold shouldOfferRecommendations offerThreshold
  by_cases h1 : intent = "product_inquiry"
  · simp [h1]
  · by_cases h2 : effectiveOfferTiming env = "early"
    · simp [h1, h2]
    · by_cases h3 : effectiveOfferTiming env = "balanced"
      · simp [h1, h2, h3]
      · simp [h1, h2, h3]

/-- C2 counterexample.  The append guard of `updateUserState` uses
`conversationHistory.some(...)`, a search over the whole history, not a check
of the trailing entry: here the user re-sends "hi" after two intervening
messages (the history does not end in the "hi" entry), yet the append is
skipped and the history is unchanged — the claim predicts it is appended
again. -/
theorem C2_counterexample :
    let st1 := updateUserState defaultState
      { lastIntent := "greeting", lastMessage := "hi", messageCount := 1 }
    let st2 := addBotResponse st1 "Hi there! How can I help you today?"
    let st3 := updateUserState st2
      { lastIntent := "shipping_inquiry", lastMessage := "do you ship fast", messageCount := 2 }
    let st4 := addBotResponse st3 "Yes we do."
    let st5 := updateUserState st4
      { lastIntent := "greeting", lastMessage := "hi", messageCount := 3 }
    st5.conversationHistory = st4.conversationHistory
    ∧ st4.conversationHistory.getLast? ≠ some { role := "user", content := "hi" }
    ∧ (st4.conversationHistory.filter (fun msg => msg.content = "hi")).length = 1 := by
  decide

/-- The conversation history produced by one `updateUserState` call: the
append happens exactly when the message is non-empty and no user entry with
the same content is anywhere in the history. -/
theorem updateUserState_history (currentState : ConversationState) (updates : StateUpdates) :
    (updateUserState currentState updates).conversationHistory =
      if updates.lastMessage ≠ "" ∧
          ¬ currentState.conversationHistory.any
            (fun msg => msg.role = "user" ∧ msg.content = updates.lastMessage) then
        currentState.conversationHistory ++ [⟨"user", updates.lastMessage⟩]
      else
        currentState.conversationHistory := by
  rfl

/-- C2 (amended): the state update appends the inbound user message to
`conversationHistory` idempotently, skipping the append exactly when the
message is empty or a `role: "user"` entry with the same content already
appears anywhere in the history; so submitting the identical user message
twice in a row leaves exactly one stored entry for it, and the same content
re-sent after other intervening messages is also not appended again. -/
theorem C2_append_guard :
    (∀ currentState updates,
        (updateUserState currentState updates).conversationHistory =
          if updates.lastMessage ≠ "" ∧
              ¬ currentState.conversationHistory.any
                (fun msg => msg.role = "user" ∧ msg.content = updates.lastMessage) then
            currentState.conversationHistory ++ [⟨"user", updates.lastMessage⟩]
          else
            currentState.conversationHistory)
    ∧ (∀ currentState intent intent' message count count',
        (updateUserState (updateUserState currentState
            { lastIntent := intent, lastMessage := message, messageCount := count })
            { lastIntent := intent', lastMessage := message, messageCount := count' }
          ).conversationHistory =
        (updateUserState currentState
            { lastIntent := intent, lastMessage := message, messageCount := count }
          ).conversationHistory) := by
  refine ⟨updateUserState_history, ?_⟩
  intro currentState intent intent' message count count'
  by_cases hm : message = ""
  · rw [updateUserState_history, updateUserState_history]
    simp [hm]
  · by_cases hdup : (currentState.conversationHistory.any
        (fun msg => msg.role = "user" ∧ msg.content = message)) = true
    · have hc : ¬((message ≠ "" ∧
          ¬ (currentState.conversationHistory.any
            (fun msg => msg.role = "user" ∧ msg.content = message) = true))) :=
        fun h => h.2 hdup
      have hinner : (updateUserState currentState
          { lastIntent := intent, lastMessage := message, messageCount := count }
          ).conversationHistory = currentState.conversationHistory := by
        rw [updateUserState_history, if_neg hc]
      rw [updateUserState_history, hinner, if_neg hc]
    · have hinner : (updateUserState currentState
          { lastIntent := intent, lastMessage := message, messageCount := count }
          ).conversationHistory =
            currentState.conversationHistory ++ [⟨"user", message⟩] := by
        rw [updateUserState_history, if_pos ⟨hm, hdup⟩]
      have hc2 : ((currentState.conversationHistory ++ [(⟨"user", message⟩ : Message)]).any
          (fun msg => msg.role = "user" ∧ msg.content = message)) = true := by
        simp [List.any_append]
      rw [updateUserState_history, hinner, if_neg (fun h => h.2 hc2)]

/-- C3: stage derivation is a pure function of `(messageCount, lastIntent)`
evaluated as the ordered first-match-wins rule list of the spec:
`messageCount <= 1` gives "greeting" regardless of `lastIntent`; else
"checkout_help" gives "checkout"; else "product_inquiry" or "price_inquiry"
gives "product_discovery"; else "objection" gives "objection_handling"; else
`messageCount >= 5` gives "engagement"; otherwise "information". -/
theorem C3_stage_derivation :
    ∀ state : ConversationState,
      determineConversationStage state = deriveStageSpec state.messageCount state.lastIntent := by
  intro state
  rfl

/-- The stage rules read nothing but `messageCount` and `lastIntent`. -/
theorem determineConversationStage_congr (s s' : ConversationState)
    (h1 : s.messageCount = s'.messageCount) (h2 : s.lastIntent = s'.lastIntent) :
    determineConversationStage s = determineConversationStage s' := by
  unfold determineConversationStage
  rw [h1, h2]

/-- When the dispatched handler resolves, the caller sees its `response`
unchanged (the recommendation step only touches `actions`). -/
theorem processMessage_response_of_handler_ok (stored : Option ConversationState)
    (clsParse : String → Except String IntentResult) (clsSvc : Except String String)
    (handlers : IntentHandlers) (offerTimingEnv : Option String)
    (recSvc : String → Except String String) (recParse : String → Except String RecResponse)
    (message : String) (r : HandlerResult)
    (h : getHandlerForIntent handlers (classifyIntent clsParse clsSvc).intent message
        (getUserState stored) = .ok r) :
    (processMessage stored clsParse clsSvc handlers offerTimingEnv recSvc recParse
        message).response = r.response := by
  unfold processMessage processMessageTry
  rw [h]

/-- When the dispatched handler resolves and the recommendation policy says
no at the loaded state, the caller sees exactly the handler's actions. -/
theorem processMessage_actions_of_policy_false (stored : Option ConversationState)
    (clsParse : String → Except String IntentResult) (clsSvc : Except String String)
    (handlers : IntentHandlers) (offerTimingEnv : Option String)
    (recSvc : String → Except String String) (recParse : String → Except String RecResponse)
    (message : String) (r : HandlerResult)
    (h : getHandlerForIntent handlers (classifyIntent clsParse clsSvc).intent message
        (getUserState stored) = .ok r)
    (hpol : shouldOfferRecommendations (classifyIntent clsParse clsSvc).intent offerTimingEnv
        (getUserState stored) = false) :
    (processMessage stored clsParse clsSvc handlers offerTimingEnv recSvc recParse
        message).actions = r.actions.getD [] := by
  unfold processMessage processMessageTry
  rw [h]
  simp [hpol]

/-- C4: any transport, parsing, or service error inside intent classification
is caught locally and mapped to `{intent: "general_question", confidence: 0.5}`
— classification never propagates a failure; consequently, on a failed
external classifier call, `processMessage` (with the spec-modelled handlers)
still returns a non-empty response string and the state update records
`lastIntent = "general_question"`. -/
theorem C4_classifier_fallback :
    (∀ (parse : String → Except String IntentResult) (e : String),
        classifyIntent parse (.error e) = fallbackIntentResult)
    ∧ (∀ (parse : String → Except String IntentResult) (content e : String),
        parse content = .error e →
        classifyIntent parse (.ok content) = fallbackIntentResult)
    ∧ (∀ stored offerTimingEnv recSvc recParse clsParse (message e : String),
        (processMessage stored clsParse (.error e) specHandlers offerTimingEnv recSvc recParse
            message).response ≠ ""
        ∧ (processMessageState stored clsParse (.error e) message).lastIntent =
            some "general_question") := by
  refine ⟨fun parse e => rfl, ?_, ?_⟩
  · intro parse content e h
    unfold classifyIntent
    rw [show ((.ok content : Except String String) >>= parse) = parse content from rfl, h]
  · intro stored offerTimingEnv recSvc recParse clsParse message e
    constructor
    · have h : getHandlerForIntent specHandlers
          (classifyIntent clsParse (.error e)).intent message (getUserState stored) =
          .ok ⟨"Happy to help with that.", none⟩ := rfl
      rw [processMessage_response_of_handler_ok stored clsParse (.error e) specHandlers
        offerTimingEnv recSvc recParse message _ h]
      decide
    · rfl

/-- C5: the orchestrator is total at its boundary — `processMessage` either
returns the try block's result or, when any step of the try block throws
(including the dispatched handler), returns the generic apology with an empty
actions list; the caller never sees a raw error. -/
theorem C5_orchestrator_catch :
    (∀ stored clsParse clsSvc handlers offerTimingEnv recSvc recParse message,
        (∃ r, processMessageTry stored clsParse clsSvc handlers offerTimingEnv recSvc recParse
            message = .ok r
          ∧ processMessage stored clsParse clsSvc handlers offerTimingEnv recSvc recParse
            message = r)
      ∨ (∃ e, processMessageTry stored clsParse clsSvc handlers offerTimingEnv recSvc recParse
            message = .error e
          ∧ processMessage stored clsParse clsSvc handlers offerTimingEnv recSvc recParse
            message = { response := apologyResponse, actions := [] }))
    ∧ (∀ stored clsParse clsSvc handlers offerTimingEnv recSvc recParse message e,
        getHandlerForIntent handlers (classifyIntent clsParse clsSvc).intent message
            (getUserState stored) = .error e →
        processMessage stored clsParse clsSvc handlers offerTimingEnv recSvc recParse
            message = { response := apologyResponse, actions := [] }) := by
  constructor
  · intro stored clsParse clsSvc handlers offerTimingEnv recSvc recParse message
    cases h : processMessageTry stored clsParse clsSvc handlers offerTimingEnv recSvc
        recParse message with
    | ok r => exact .inl ⟨r, rfl, by unfold processMessage; rw [h]⟩
    | error e => exact .inr ⟨e, rfl, by unfold processMessage; rw [h]⟩
  · intro stored clsParse clsSvc handlers offerTimingEnv recSvc recParse message e h
    unfold processMessage processMessageTry
    rw [h]

/-- C6: the intent handler and the recommendation policy both receive the
state object as loaded before the step-3 update: the updated state has
`messageCount` one above the loaded state, the caller's response is the
handler's output at the loaded (pre-increment) state, and when the policy is
false at the loaded state no recommendation action is appended. -/
theorem C6_pre_update_state :
    (∀ stored clsParse clsSvc message,
        (processMessageState stored clsParse clsSvc message).messageCount =
          (getUserState stored).messageCount + 1)
    ∧ (∀ stored clsParse clsSvc handlers offerTimingEnv recSvc recParse message r,
        getHandlerForIntent handlers (classifyIntent clsParse clsSvc).intent message
            (getUserState stored) = .ok r →
        (processMessage stored clsParse clsSvc handlers offerTimingEnv recSvc recParse
            message).response = r.response)
    ∧ (∀ stored clsParse clsSvc handlers offerTimingEnv recSvc recParse message r,
        getHandlerForIntent handlers (classifyIntent clsParse clsSvc).intent message
            (getUserState stored) = .ok r →
        shouldOfferRecommendations (classifyIntent clsParse clsSvc).intent offerTimingEnv
            (getUserState stored) = false →
        (processMessage stored clsParse clsSvc handlers offerTimingEnv recSvc recParse
            message).actions = r.actions.getD []) := by
  refine ⟨fun stored clsParse clsSvc message => rfl, ?_, ?_⟩
  · intro stored clsParse clsSvc handlers offerTimingEnv recSvc recParse message r h
    exact processMessage_response_of_handler_ok stored clsParse clsSvc handlers offerTimingEnv
      recSvc recParse message r h
  · intro stored clsParse clsSvc handlers offerTimingEnv recSvc recParse message r h hpol
    exact processMessage_actions_of_policy_false stored clsParse clsSvc handlers offerTimingEnv
      recSvc recParse message r h hpol

/-- C7: the recommendation generator's contextual prompt is built from at most
the last five history entries (dropping all older entries leaves the prompt
unchanged), and it returns the parsed `recommendations` array — with a missing
array, a parse error, or a service error all yielding the empty list, never a
propagated failure. -/
theorem C7_recommendation_window :
    (∀ message userState,
        buildRecContextPrompt message userState =
          buildRecContextPrompt message
            { userState with
              conversationHistory := userState.conversationHistory.drop
                (userState.conversationHistory.length - 5) })
    ∧ (∀ svc parse message userState result,
        svc (buildRecContextPrompt message userState) >>= parse = .ok result →
        getProductRecommendations svc parse message userState =
          result.recommendations.getD [])
    ∧ (∀ svc parse message userState e,
        svc (buildRecContextPrompt message userState) >>= parse = .error e →
        getProductRecommendations svc parse message userState = []) := by
  refine ⟨?_, ?_, ?_⟩
  · intro message userState
    have hlen : (userState.conversationHistory.drop
        (userState.conversationHistory.length - 5)).length - 5 = 0 := by
      rw [List.length_drop]
      omega
    unfold buildRecContextPrompt
    simp only [hlen, List.drop_zero]
  · intro svc parse message userState result h
    unfold getProductRecommendations
    rw [h]
  · intro svc parse message userState e h
    unfold getProductRecommendations
    rw [h]

/-- On every label that is not an inherited `Object.prototype` member name,
the own-key dispatch used in the orchestrator embedding agrees with the full
JavaScript member-access semantics. -/
theorem getHandlerForIntentJS_agrees (handlers : IntentHandlers) (intent : String)
    (h : intent ∉ objectPrototypeKeys) :
    getHandlerForIntentJS handlers intent = .own (getHandlerForIntent handlers intent) := by
  unfold getHandlerForIntentJS getHandlerForIntent
  split_ifs <;> rfl

/-- C8 counterexample.  The lookup is
`intentHandlers[intent] || intentHandlers.general_question` on a plain object
literal: for the label "toString" the member access finds the truthy
`Object.prototype.toString` inherited through the prototype chain, so the
`||` short-circuits and the `general_question` handler is NOT returned —
refuting the claim that every unmapped label falls back to it. -/
theorem C8_counterexample :
    getHandlerForIntentJS specHandlers "toString" = .inherited "toString"
    ∧ MemberValue.inherited "toString" ≠ .own specHandlers.general_question :=
  ⟨rfl, fun h => MemberValue.noConfusion h⟩

/-- C8 (amended): the dispatch is a fixed, total mapping over intent labels:
each of the nine closed-set categories resolves to its dedicated handler (own
properties shadow the prototype), a label outside the nine that names an
inherited `Object.prototype` member (toString, constructor, __proto__, ...)
returns that truthy inherited member rather than the fallback, and every
other label (an `undefined` access) falls back to the `general_question`
handler. -/
theorem C8_dispatch_table_amended :
    (∀ handlers : IntentHandlers,
        getHandlerForIntentJS handlers "greeting" = .own handlers.greeting
        ∧ getHandlerForIntentJS handlers "product_inquiry" = .own handlers.product_inquiry
        ∧ getHandlerForIntentJS handlers "price_inquiry" = .own handlers.price_inquiry
        ∧ getHandlerForIntentJS handlers "shipping_inquiry" = .own handlers.shipping_inquiry
        ∧ getHandlerForIntentJS handlers "return_policy" = .own handlers.return_policy
        ∧ getHandlerForIntentJS handlers "checkout_help" = .own handlers.checkout_help
        ∧ getHandlerForIntentJS handlers "objection" = .own handlers.objection
        ∧ getHandlerForIntentJS handlers "complaint" = .own handlers.complaint
        ∧ getHandlerForIntentJS handlers "general_question" = .own handlers.general_question)
    ∧ (∀ (handlers : IntentHandlers) (intent : String),
        intent ∉ intentCategories → intent ∈ objectPrototypeKeys →
        getHandlerForIntentJS handlers intent = .inherited intent)
    ∧ (∀ (handlers : IntentHandlers) (intent : String),
        intent ∉ intentCategories → intent ∉ objectPrototypeKeys →
        getHandlerForIntentJS handlers intent = .own handlers.general_question) := by
  refine ⟨?_, ?_, ?_⟩
  · intro handlers
    exact ⟨rfl, rfl, rfl, rfl, rfl, rfl, rfl, rfl, rfl⟩
  · intro handlers intent hcat hproto
    simp only [intentCategories, List.mem_cons, List.not_mem_nil, or_false, not_or] at hcat
    obtain ⟨h1, h2, h3, h4, h5, h6, h7, h8, h9⟩ := hcat
    simp [getHandlerForIntentJS, h1, h2, h3, h4, h5, h6, h7, h8, h9, hproto]
  · intro handlers intent hcat hproto
    simp only [intentCategories, List.mem_cons, List.not_mem_nil, or_false, not_or] at hcat
    obtain ⟨h1, h2, h3, h4, h5, h6, h7, h8, h9⟩ := hcat
    simp [getHandlerForIntentJS, h1, h2, h3, h4, h5, h6, h7, h8, h9, hproto]

/-- Counting user entries distributes over history concatenation. -/
theorem userEntryCount_append (h1 h2 : List Message) :
    userEntryCount (h1 ++ h2) = userEntryCount h1 + userEntryCount h2 := by
  unfold userEntryCount
  rw [List.filter_append, List.length_append]

/-- Every reachable state counts at least as many inbound messages as it has
stored user history entries. -/
theorem reachable_userEntryCount_le (st : ConversationState) (h : ReachableState st) :
    userEntryCount st.conversationHistory ≤ st.messageCount := by
  induction h with
  | init => exact Nat.le_refl 0
  | update st' intent message _ ih =>
    rw [show (updateUserState st'
        { lastIntent := intent, lastMessage := message,
          messageCount := st'.messageCount + 1 }).messageCount = st'.messageCount + 1 from rfl,
      updateUserState_history]
    split
    · rw [userEntryCount_append]
      exact Nat.add_le_add ih (by simp [userEntryCount])
    · exact Nat.le_succ_of_le ih
  | bot st' response _ ih =>
    show userEntryCount (st'.conversationHistory ++ [⟨"assistant", response⟩]) ≤
      st'.messageCount
    rw [userEntryCount_append]
    simpa [userEntryCount] using ih

/-- C9: along every state reachable from the lazily created default state via
the orchestrator's update and the bot-response append, `messageCount` never
decreases, the history only ever grows by appending (prefix extension), and
the stored `stage` always equals the pure stage derivation applied to the
current `(messageCount, lastIntent)`. -/
theorem C9_state_invariants :
    (∀ st intent message,
        st.messageCount ≤ (updateUserState st
          { lastIntent := intent, lastMessage := message,
            messageCount := st.messageCount + 1 }).messageCount
        ∧ ∃ t, (updateUserState st
            { lastIntent := intent, lastMessage := message,
              messageCount := st.messageCount + 1 }).conversationHistory =
            st.conversationHistory ++ t)
    ∧ (∀ st response,
        st.messageCount ≤ (addBotResponse st response).messageCount
        ∧ ∃ t, (addBotResponse st response).conversationHistory =
            st.conversationHistory ++ t)
    ∧ (∀ st, ReachableState st → st.stage = determineConversationStage st) := by
  refine ⟨?_, ?_, ?_⟩
  · intro st intent message
    constructor
    · exact Nat.le_succ st.messageCount
    · rw [updateUserState_history]
      split
      · exact ⟨[⟨"user", message⟩], rfl⟩
      · exact ⟨[], (List.append_nil _).symm⟩
  · intro st response
    exact ⟨Nat.le_refl _, ⟨[⟨"assistant", response⟩], rfl⟩⟩
  · intro st h
    induction h with
    | init => rfl
    | update st' intent message _ _ =>
      exact determineConversationStage_congr _ _ rfl rfl
    | bot st' response _ ih =>
      calc (addBotResponse st' response).stage = st'.stage := rfl
        _ = determineConversationStage st' := ih
        _ = determineConversationStage (addBotResponse st' response) :=
            determineConversationStage_congr _ _ rfl rfl

/-- C10: in every reachable state the message counter dominates the number of
stored `role: "user"` history entries; the gap becomes strict as soon as an
update's message already occurs as a user entry anywhere in the history (the
append is skipped while the counter still increments), and strictness is
permanent — both subsequent updates and bot appends preserve it. -/
theorem C10_count_dominates_history :
    (∀ st, ReachableState st →
        userEntryCount st.conversationHistory ≤ st.messageCount)
    ∧ (∀ st intent message, ReachableState st →
        st.conversationHistory.any
          (fun msg => msg.role = "user" ∧ msg.content = message) = true →
        userEntryCount (updateUserState st
            { lastIntent := intent, lastMessage := message,
              messageCount := st.messageCount + 1 }).conversationHistory <
          (updateUserState st
            { lastIntent := intent, lastMessage := message,
              messageCount := st.messageCount + 1 }).messageCount)
    ∧ (∀ st intent message,
        userEntryCount st.conversationHistory < st.messageCount →
        userEntryCount (updateUserState st
            { lastIntent := intent, lastMessage := message,
              messageCount := st.messageCount + 1 }).conversationHistory <
          (updateUserState st
            { lastIntent := intent, lastMessage := message,
              messageCount := st.messageCount + 1 }).messageCount)
    ∧ (∀ st response,
        userEntryCount st.conversationHistory < st.messageCount →
        userEntryCount (addBotResponse st response).conversationHistory <
          (addBotResponse st response).messageCount) := by
  refine ⟨reachable_userEntryCount_le, ?_, ?_, ?_⟩
  · intro st intent message hreach hdup
    have hle := reachable_userEntryCount_le st hreach
    rw [show (updateUserState st
        { lastIntent := intent, lastMessage := message,
          messageCount := st.messageCount + 1 }).messageCount = st.messageCount + 1 from rfl,
      updateUserState_history, if_neg (fun hc => hc.2 hdup)]
    exact Nat.lt_succ_of_le hle
  · intro st intent message hlt
    rw [show (updateUserState st
        { lastIntent := intent, lastMessage := message,
          messageCount := st.messageCount + 1 }).messageCount = st.messageCount + 1 from rfl,
      updateUserState_history]
    split
    · rw [userEntryCount_append]
      have : userEntryCount [(⟨"user", message⟩ : Message)] = 1 := by simp [userEntryCount]
      rw [this]
      exact Nat.add_lt_add_of_lt_of_le hlt (Nat.le_refl 1)
    · exact Nat.lt_succ_of_lt hlt
  · intro st response hlt
    show userEntryCount (st.conversationHistory ++ [⟨"assistant", response⟩]) < st.messageCount
    rw [userEntryCount_append]
    simpa [userEntryCount] using hlt

/-- C2 witness: submitting the identical user message "hi" twice in a row via
two consecutive state updates leaves exactly one stored history entry. -/
theorem C2_append_guard_witness :
    (updateUserState (updateUserState defaultState
        { lastIntent := "greeting", lastMessage := "hi", messageCount := 1 })
        { lastIntent := "greeting", lastMessage := "hi", messageCount := 2 }
      ).conversationHistory = [⟨"user", "hi"⟩] :=
  (C2_append_guard.2 defaultState "greeting" "greeting" "hi" 1 2).trans (by decide)

/-- C4 witness: a failed transport and a failed parse both degrade to the
fallback intent, and on a dead classifier call `processMessage` still answers
with a non-empty reply while the state records `general_question`. -/
theorem C4_classifier_fallback_witness :
    classifyIntent (fun _ => .error "bad json") (.error "network down") = fallbackIntentResult
    ∧ classifyIntent (fun _ => .error "bad json") (.ok "not json") = fallbackIntentResult
    ∧ (processMessage none (fun _ => .error "bad json") (.error "network down") specHandlers
        none (fun _ => .error "down") (fun _ => .error "bad json") "hi").response ≠ ""
    ∧ (processMessageState none (fun _ => .error "bad json") (.error "network down")
        "hi").lastIntent = some "general_question" :=
  ⟨C4_classifier_fallback.1 (fun _ => .error "bad json") "network down",
   C4_classifier_fallback.2.1 (fun _ => .error "bad json") "not json" "bad json" rfl,
   (C4_classifier_fallback.2.2 none none (fun _ => .error "down")
     (fun _ => .error "bad json") (fun _ => .error "bad json") "hi" "network down").1,
   (C4_classifier_fallback.2.2 none none (fun _ => .error "down")
     (fun _ => .error "bad json") (fun _ => .error "bad json") "hi" "network down").2⟩

/-- C5 witness: a handler that throws is recovered at the boundary into the
generic apology with no actions. -/
theorem C5_orchestrator_catch_witness :
    processMessage none (fun _ => .ok ⟨"greeting", 9/10⟩) (.ok "json")
      { specHandlers with greeting := fun _ _ => .error "handler blew up" }
      none (fun _ => .error "down") (fun _ => .error "bad json") "hello" =
      { response := apologyResponse, actions := [] } :=
  C5_orchestrator_catch.2 none (fun _ => .ok ⟨"greeting", 9/10⟩) (.ok "json")
    { specHandlers with greeting := fun _ _ => .error "handler blew up" }
    none (fun _ => .error "down") (fun _ => .error "bad json") "hello" "handler blew up" rfl

/-- C6 witness: processing the second inbound message under "early" timing,
the policy sees the pre-increment count 1 (below the early threshold 2), so
the handler reply carries no recommendation action even though the updated
state reaches count 2. -/
theorem C6_pre_update_state_witness :
    (processMessage (some { defaultState with messageCount := 1 })
        (fun _ => .ok ⟨"greeting", 9/10⟩) (.ok "json") specHandlers (some "early")
        (fun _ => .ok "json") (fun _ => .ok ⟨some [sampleProduct]⟩)
        "hello again").response = "Hi there! How can I help you today?"
    ∧ (processMessage (some { defaultState with messageCount := 1 })
        (fun _ => .ok ⟨"greeting", 9/10⟩) (.ok "json") specHandlers (some "early")
        (fun _ => .ok "json") (fun _ => .ok ⟨some [sampleProduct]⟩)
        "hello again").actions = []
    ∧ (processMessageState (some { defaultState with messageCount := 1 })
        (fun _ => .ok ⟨"greeting", 9/10⟩) (.ok "json") "hello again").messageCount = 2 :=
  ⟨C6_pre_update_state.2.1 (some { defaultState with messageCount := 1 })
      (fun _ => .ok ⟨"greeting", 9/10⟩) (.ok "json") specHandlers (some "early")
      (fun _ => .ok "json") (fun _ => .ok ⟨some [sampleProduct]⟩) "hello again"
      ⟨"Hi there! How can I help you today?", none⟩ rfl,
   C6_pre_update_state.2.2 (some { defaultState with messageCount := 1 })
      (fun _ => .ok ⟨"greeting", 9/10⟩) (.ok "json") specHandlers (some "early")
      (fun _ => .ok "json") (fun _ => .ok ⟨some [sampleProduct]⟩) "hello again"
      ⟨"Hi there! How can I help you today?", none⟩ rfl rfl,
   C6_pre_update_state.1 (some { defaultState with messageCount := 1 })
      (fun _ => .ok ⟨"greeting", 9/10⟩) (.ok "json") "hello again"⟩

/-- C7 witness: a parsed `recommendations` array is returned as is, and a dead
recommendation service yields the empty list. -/
theorem C7_recommendation_window_witness :
    getProductRecommendations (fun _ => .ok "json") (fun _ => .ok ⟨some [sampleProduct]⟩)
      "any decks" defaultState = [sampleProduct]
    ∧ getProductRecommendations (fun _ => .error "network down")
      (fun _ => .ok ⟨some [sampleProduct]⟩) "any decks" defaultState = [] :=
  ⟨C7_recommendation_window.2.1 (fun _ => .ok "json") (fun _ => .ok ⟨some [sampleProduct]⟩)
      "any decks" defaultState ⟨some [sampleProduct]⟩ rfl,
   C7_recommendation_window.2.2 (fun _ => .error "network down")
      (fun _ => .ok ⟨some [sampleProduct]⟩) "any decks" defaultState "network down" rfl⟩

/-- C8 witness: a mapped label resolves to its own handler, the prototype
member name "valueOf" resolves to the inherited member, and the unknown label
"pricing" falls back to the `general_question` handler. -/
theorem C8_dispatch_table_amended_witness :
    getHandlerForIntentJS specHandlers "greeting" = .own specHandlers.greeting
    ∧ getHandlerForIntentJS specHandlers "valueOf" = .inherited "valueOf"
    ∧ getHandlerForIntentJS specHandlers "pricing" = .own specHandlers.general_question :=
  ⟨(C8_dispatch_table_amended.1 specHandlers).1,
   C8_dispatch_table_amended.2.1 specHandlers "valueOf" (by decide) (by decide),
   C8_dispatch_table_amended.2.2 specHandlers "pricing" (by decide) (by decide)⟩

/-- C9 witness: the stage invariant at the default state and after one update,
and the count monotonicity of one update. -/
theorem C9_state_invariants_witness :
    defaultState.stage = determineConversationStage defaultState
    ∧ (updateUserState defaultState
        { lastIntent := "greeting", lastMessage := "hi", messageCount := 1 }).stage =
      determineConversationStage (updateUserState defaultState
        { lastIntent := "greeting", lastMessage := "hi", messageCount := 1 })
    ∧ defaultState.messageCount ≤ (updateUserState defaultState
        { lastIntent := "greeting", lastMessage := "hi", messageCount := 1 }).messageCount :=
  ⟨C9_state_invariants.2.2 defaultState ReachableState.init,
   C9_state_invariants.2.2 _
     (ReachableState.update defaultState "greeting" "hi" ReachableState.init),
   (C9_state_invariants.1 defaultState "greeting" "hi").1⟩

/-- C10 witness: re-sending "hi" as the second message makes the counter
strictly exceed the stored user entries. -/
theorem C10_count_dominates_history_witness :
    userEntryCount (updateUserState (updateUserState defaultState
        { lastIntent := "greeting", lastMessage := "hi", messageCount := 1 })
        { lastIntent := "greeting", lastMessage := "hi", messageCount := 2 }
      ).conversationHistory <
      (updateUserState (updateUserState defaultState
        { lastIntent := "greeting", lastMessage := "hi", messageCount := 1 })
        { lastIntent := "greeting", lastMessage := "hi", messageCount := 2 }
      ).messageCount :=
  C10_count_dominates_history.2.1 _ "greeting" "hi"
    (ReachableState.update defaultState "greeting" "hi" ReachableState.init) (by decide)
